import Mathlib

/-!
Verification of the risk-gated execution simulator of the `mt5-trading-bot`
repository.  Python floats are modelled by exact rationals (`ℚ`), `datetime`
values by rational minute counts, calendar dates by integer day numbers, and
fallible code by `Except`/`Option`.  The development embeds two variants that
coexist in the source tree: the `mt5-trading-bot/src` package (primary, plain
names below) and the drifting `src/src` package (names suffixed with `V2`).
-/

/-- Signal direction, from `core/types.py` (`class SignalType(Enum)`). -/
inductive SignalType
  | buy
  | sell
  | hold
  deriving DecidableEq, Repr

/-- Trading recommendation from a strategy, from `core/types.py`
(`StrategyRecommendation`).  `timestamp` is minutes since an arbitrary epoch. -/
structure StrategyRecommendation where
  symbol : String
  timeframe : String
  signal : SignalType
  confidence : ℚ
  entry_price : ℚ
  stop_loss : Option ℚ := none
  take_profit : Option ℚ := none
  timestamp : ℚ := 0
  deriving DecidableEq, Repr

/-- Account snapshot, from `risk/state.py` (`AccountState`). -/
structure AccountState where
  balance : ℚ
  equity : ℚ
  margin : ℚ
  free_margin : ℚ
  margin_level : ℚ
  timestamp : ℚ := 0
  deriving DecidableEq, Repr

/-- Open-position snapshot tracked by the risk state, from `risk/state.py`
(`PositionState`). -/
structure PositionState where
  symbol : String
  volume : ℚ
  entry_price : ℚ
  current_price : ℚ
  profit : ℚ
  timestamp : ℚ := 0
  deriving DecidableEq, Repr

/-- Mutable risk state, from `risk/state.py` (`class RiskState.__init__`).
The field `max_drawdown` holds the drawdown recomputed on every account
update, exactly as in the source. -/
structure RiskState where
  account_state : Option AccountState := none
  positions : List PositionState := []
  daily_pnl : ℚ := 0
  max_drawdown : ℚ := 0
  peak_equity : ℚ := 0
  deriving DecidableEq, Repr

/-- Risk configuration, from `risk/config.py` (`RiskConfig`).  The source
field `take_profit_ratio` is rendered `take_profit_rr` here (same value). -/
structure RiskConfig where
  max_drawdown_pct : ℚ := 20/100
  daily_loss_limit_pct : ℚ := 5/100
  risk_per_trade_pct : ℚ := 2/100
  max_position_size_pct : ℚ := 10/100
  max_total_exposure_pct : ℚ := 50/100
  stop_loss_pct : ℚ := 2/100
  take_profit_rr : ℚ := 2
  cooldown_after_loss_minutes : ℤ := 60
  deriving DecidableEq, Repr

/-- Embeds `RiskState.update_account`: records the snapshot, raises the peak-equity
high-water mark, and recomputes the drawdown when the peak is positive
(`risk/state.py`, lines 44-53). -/
def RiskState.update_account (st : RiskState) (account_state : AccountState) : RiskState :=
  let st := { st with account_state := some account_state }
  let st :=
    if account_state.equity > st.peak_equity then
      { st with peak_equity := account_state.equity }
    else st
  if st.peak_equity > 0 then
    { st with max_drawdown := (st.peak_equity - account_state.equity) / st.peak_equity }
  else st

/-- Embeds `RiskState.get_total_exposure` (`risk/state.py`, lines 63-67).  The
division is only reached with positive equity in the validated paths. -/
def RiskState.get_total_exposure (st : RiskState) : ℚ :=
  match st.account_state with
  | none => 0
  | some account =>
      ((st.positions.map (fun p => p.volume * p.current_price)).sum) / account.equity

/-- Rejection reasons carried by the limit checks.  The Python functions
return `(bool, str)` pairs; the distinct message families are modelled as
constructors (numeric payloads stand for the interpolated values). -/
inductive LimitMsg
  | ok
  | accountUnavailable (context : String)
  | invalidAccount (context : String)
  | drawdownExceeded (drawdown : ℚ)
  | dailyLossConfigInvalid
  | dailyLossExceeded (pnl limit : ℚ)
  | exposureExceeded (exposure : ℚ)
  | cooldownRemaining (minutes : ℚ)
  deriving DecidableEq, Repr

/-- Mutable fields of `risk/limits.py` `class RiskLimits` (`last_loss_time`,
`cooldown_active`); times are minutes. -/
structure RiskLimitsState where
  last_loss_time : Option ℚ := none
  cooldown_active : Bool := false
  deriving DecidableEq, Repr

/-- Embeds `RiskLimits._require_account_state` (`risk/limits.py`, lines 15-22). -/
def RiskLimits.require_account_state (rs : RiskState) (context : String) :
    Bool × LimitMsg :=
  match rs.account_state with
  | none => (false, .accountUnavailable context)
  | some account =>
      if account.balance ≤ 0 ∨ account.equity ≤ 0 then
        (false, .invalidAccount context)
      else (true, .ok)

/-- Embeds `RiskLimits.check_drawdown` (`risk/limits.py`, lines 24-28): fails only on
a drawdown strictly above the configured limit. -/
def RiskLimits.check_drawdown (cfg : RiskConfig) (rs : RiskState) : Bool × LimitMsg :=
  if rs.max_drawdown > cfg.max_drawdown_pct then
    (false, .drawdownExceeded rs.max_drawdown)
  else (true, .ok)

/-- Embeds `RiskLimits.check_daily_loss` (`risk/limits.py`, lines 30-46). -/
def RiskLimits.check_daily_loss (cfg : RiskConfig) (rs : RiskState) : Bool × LimitMsg :=
  match RiskLimits.require_account_state rs ("Daily loss check") with
  | (false, msg) => (false, msg)
  | (true, _) =>
      let balance := (rs.account_state.map AccountState.balance).getD 0
      let loss_limit := balance * |cfg.daily_loss_limit_pct|
      if loss_limit ≤ 0 then (false, .dailyLossConfigInvalid)
      else if rs.daily_pnl < -loss_limit then
        (false, .dailyLossExceeded rs.daily_pnl loss_limit)
      else (true, .ok)

/-- Embeds `RiskLimits.check_exposure` (`risk/limits.py`, lines 48-57). -/
def RiskLimits.check_exposure (cfg : RiskConfig) (rs : RiskState) : Bool × LimitMsg :=
  match RiskLimits.require_account_state rs ("Exposure check") with
  | (false, msg) => (false, msg)
  | (true, _) =>
      let exposure := rs.get_total_exposure
      if exposure > cfg.max_total_exposure_pct then
        (false, .exposureExceeded exposure)
      else (true, .ok)

/-- Embeds `RiskLimits.check_cooldown` (`risk/limits.py`, lines 59-69).  `now` stands
for `datetime.now()` in minutes; the method clears `cooldown_active` once the
elapsed time reaches the configured minutes, so it also returns the updated
limits state. -/
def RiskLimits.check_cooldown (cfg : RiskConfig) (ls : RiskLimitsState) (now : ℚ) :
    RiskLimitsState × Bool × LimitMsg :=
  if ls.cooldown_active then
    match ls.last_loss_time with
    | some t =>
        let elapsed := now - t
        if elapsed < (cfg.cooldown_after_loss_minutes : ℚ) then
          (ls, false, .cooldownRemaining ((cfg.cooldown_after_loss_minutes : ℚ) - elapsed))
        else
          ({ ls with cooldown_active := false }, true, .ok)
    | none => (ls, true, .ok)
  else (ls, true, .ok)

/-- Embeds `RiskLimits.trigger_cooldown` (`risk/limits.py`, lines 71-74). -/
def RiskLimits.trigger_cooldown (ls : RiskLimitsState) (now : ℚ) : RiskLimitsState :=
  { ls with last_loss_time := some now, cooldown_active := true }

/-- Embeds `RiskEngine.validate_trade` (`risk/risk_engine.py`, lines 21-47): runs
drawdown, daily-loss, exposure, then cooldown, returning at the first failing
check.  The source returns only the boolean and prints the reason; the printed
reason is exposed as the `LimitMsg` component (`.ok` on approval). -/
def RiskEngine.validate_trade (cfg : RiskConfig) (rs : RiskState) (ls : RiskLimitsState)
    (now : ℚ) : RiskLimitsState × Bool × LimitMsg :=
  match RiskLimits.check_drawdown cfg rs with
  | (false, msg) => (ls, false, msg)
  | (true, _) =>
  match RiskLimits.check_daily_loss cfg rs with
  | (false, msg) => (ls, false, msg)
  | (true, _) =>
  match RiskLimits.check_exposure cfg rs with
  | (false, msg) => (ls, false, msg)
  | (true, _) =>
  match RiskLimits.check_cooldown cfg ls now with
  | (ls2, false, msg) => (ls2, false, msg)
  | (ls2, true, _) => (ls2, true, .ok)

/-- Modelled from the spec: validation in the order stated by the spec and by
claim C1 — cooldown, then drawdown, then daily loss, then exposure, first
failure short-circuiting with its reason.  Used only to compare against the
order actually implemented by `RiskEngine.validate_trade`. -/
def specValidateTradeOrder (cfg : RiskConfig) (rs : RiskState) (ls : RiskLimitsState)
    (now : ℚ) : RiskLimitsState × Bool × LimitMsg :=
  match RiskLimits.check_cooldown cfg ls now with
  | (ls2, false, msg) => (ls2, false, msg)
  | (ls2, true, _) =>
  match RiskLimits.check_drawdown cfg rs with
  | (false, msg) => (ls2, false, msg)
  | (true, _) =>
  match RiskLimits.check_daily_loss cfg rs with
  | (false, msg) => (ls2, false, msg)
  | (true, _) =>
  match RiskLimits.check_exposure cfg rs with
  | (false, msg) => (ls2, false, msg)
  | (true, _) => (ls2, true, .ok)

/-- Risk state used in the C1 counterexample: drawdown above the limit while a
cooldown is also active. -/
def c1State : RiskState :=
  { account_state := some { balance := 10000, equity := 10000, margin := 0,
                            free_margin := 10000, margin_level := 0, timestamp := 0 }
    positions := []
    daily_pnl := 0
    max_drawdown := 30/100
    peak_equity := 10000 }

/-- Limits state used in the C1 counterexample: a loss was registered ten
minutes before `now = 10`, so the 60-minute cooldown is still running. -/
def c1Limits : RiskLimitsState :=
  { last_loss_time := some 0, cooldown_active := true }

/-- Python's `round` to the nearest integer, ties to even (banker's
rounding), over exact rationals. -/
def roundHalfEven (q : ℚ) : ℤ :=
  let f := ⌊q⌋
  let r := q - f
  if r < 1/2 then f
  else if 1/2 < r then f + 1
  else if Even f then f else f + 1

/-- Python's `round(x, 5)`: banker's rounding at the fifth decimal. -/
def pyRound5 (q : ℚ) : ℚ := (roundHalfEven (q * 100000) : ℚ) / 100000

/-- Sizing failures of `mt5-trading-bot/src/risk/position_sizing.py`; the only
one is Python's `ZeroDivisionError`, raised when a divisor is zero. -/
inductive SizingError
  | zeroDivision
  deriving DecidableEq, Repr

/-- Embeds `calculate_position_size` (`risk/position_sizing.py`, lines 34-72 of the
function body): risk amount from the balance and the configured fraction, the
stop distance converted to pips, a flat 10-per-pip lot value, then the
max-position clamp `balance * 0.02 / (entry * contract)` and the hard
`[0.01, 2.0]` window.  Divisions by zero surface as `SizingError`. -/
def calculate_position_size (account_balance entry_price stop_loss_price : ℚ)
    (cfg : RiskConfig) (point_value : ℚ := 1/10000) (contract_size : ℚ := 100000) :
    Except SizingError ℚ :=
  let risk_amount := account_balance * cfg.risk_per_trade_pct
  let price_diff := |entry_price - stop_loss_price|
  if price_diff = 0 then .ok (1/100)
  else if point_value = 0 then .error .zeroDivision
  else
    let stop_loss_pips := price_diff / point_value
    let pip_value_per_lot : ℚ := 10
    if stop_loss_pips = 0 then .ok (1/100)
    else
      let position_size_lots := risk_amount / (stop_loss_pips * pip_value_per_lot)
      if entry_price * contract_size = 0 then .error .zeroDivision
      else
        let max_position_lots := account_balance * (2/100) / (entry_price * contract_size)
        .ok (max (1/100) (min position_size_lots (min max_position_lots 2)))

/-- Substring test for `'JPY' in symbol` over a character list. -/
def hasJPYAux : List Char → Bool
  | [] => false
  | c :: t => (List.take 3 (c :: t) = ['J', 'P', 'Y']) || hasJPYAux t

/-- Embeds `'JPY' in symbol` (`risk/risk_engine.py`, line 60). -/
def hasJPY (s : String) : Bool := hasJPYAux s.toList

/-- Embeds `RiskEngine.calculate_position_size` (`risk/risk_engine.py`, lines 49-78):
falls back to 0.01 lots without an account snapshot, derives a default stop
from `stop_loss_pct`, picks the point value from the symbol, delegates to
`calculate_position_size`, and clamps the result to `[0.01, 10.0]`. -/
def riskEngineCalculatePositionSize (cfg : RiskConfig) (rs : RiskState)
    (r : StrategyRecommendation) : Except SizingError ℚ :=
  match rs.account_state with
  | none => .ok (1/100)
  | some account =>
      let stop_loss := r.stop_loss.getD (r.entry_price * (1 - cfg.stop_loss_pct))
      let point_value : ℚ := if hasJPY r.symbol then 1/100 else 1/10000
      match calculate_position_size account.equity r.entry_price stop_loss cfg
          point_value 100000 with
      | .error e => .error e
      | .ok lots => .ok (max (1/100) (min lots 10))

/-- Account snapshot of the `src/src` variant (`src/src/risk/state.py`,
`AccountState`); a `datetime` is modelled by its calendar day number. -/
structure AccountStateV2 where
  balance : ℚ
  equity : ℚ
  currency : String := "USD"
  leverage : ℚ := 1
  timestamp_day : ℤ := 0
  deriving DecidableEq, Repr

/-- Mutable risk state of the `src/src` variant (`src/src/risk/state.py`,
`RiskState`).  Exposure dictionaries are association lists. -/
structure RiskStateV2 where
  peak_equity : ℚ := 0
  trough_equity : ℚ := 0
  current_drawdown : ℚ := 0
  max_recorded_drawdown : ℚ := 0
  daily_loss : ℚ := 0
  daily_start_equity : ℚ := 0
  daily_session : ℤ := 0
  cooldown_until : Option ℚ := none
  open_exposure : List (String × ℚ) := []
  asset_exposure : List (String × ℚ) := []
  bucket_exposure : List (String × ℚ) := []
  deriving DecidableEq, Repr

/-- Embeds `RiskState._reset_daily_if_needed` (`src/src/risk/state.py`, lines
95-100). -/
def RiskStateV2.reset_daily_if_needed (st : RiskStateV2) (session : ℤ)
    (equity : Option ℚ) : RiskStateV2 :=
  if session ≠ st.daily_session then
    let st := { st with daily_session := session, daily_loss := 0 }
    match equity with
    | some e => { st with daily_start_equity := e }
    | none => st
  else st

/-- Embeds `RiskState.update_equity` (`src/src/risk/state.py`, lines 67-87):
bootstraps the peak/trough/baseline on the first reading, tracks extremes,
recomputes the clamped drawdown, and rolls the daily session when the
timestamp's calendar day changes. -/
def RiskStateV2.update_equity (st : RiskStateV2) (equity : ℚ)
    (timestamp : Option ℤ) : RiskStateV2 :=
  let st :=
    if st.peak_equity = 0 then
      { st with peak_equity := equity, trough_equity := equity,
                daily_start_equity := equity }
    else st
  let st := if equity > st.peak_equity then { st with peak_equity := equity } else st
  let st := if equity < st.trough_equity then { st with trough_equity := equity } else st
  let drawdown := if st.peak_equity > 0 then (st.peak_equity - equity) / st.peak_equity else 0
  let st := { st with current_drawdown := max drawdown 0 }
  let st := { st with max_recorded_drawdown := max st.max_recorded_drawdown st.current_drawdown }
  match timestamp with
  | some d => st.reset_daily_if_needed d (some equity)
  | none => st

/-- Embeds `RiskState.apply_cooldown` (`src/src/risk/state.py`, lines 102-103);
`now` stands for `datetime.utcnow()` in minutes. -/
def RiskStateV2.apply_cooldown (st : RiskStateV2) (now : ℚ) (minutes : ℤ) : RiskStateV2 :=
  { st with cooldown_until := some (now + (minutes : ℚ)) }

/-- Embeds `RiskState.in_cooldown` (`src/src/risk/state.py`, lines 105-111); clears
an expired deadline, so the updated state is returned alongside the flag. -/
def RiskStateV2.in_cooldown (st : RiskStateV2) (now : ℚ) : RiskStateV2 × Bool :=
  match st.cooldown_until with
  | none => (st, false)
  | some u =>
      if now ≥ u then ({ st with cooldown_until := none }, false)
      else (st, true)

/-- Drawdown limits of the `src/src` variant (`src/src/risk/config.py`,
`DrawdownConfig`). -/
structure DrawdownConfigV2 where
  max_drawdown_pct : ℚ := 2/10
  max_daily_loss_pct : ℚ := 3/100
  max_daily_loss_abs : Option ℚ := none
  cooling_off_minutes : ℤ := 60
  deriving DecidableEq, Repr

/-- Embeds `RiskLimitEnforcer._check_drawdown` (`src/src/risk/limits.py`, lines
58-64): refreshes the equity statistics, then fails (raising
`DrawdownLimitError` and arming the cooldown) when the recomputed drawdown is
at or above the limit — a non-strict comparison. -/
def RiskLimitEnforcerCheckDrawdown (cfg : DrawdownConfigV2) (st : RiskStateV2)
    (account : AccountStateV2) (now : ℚ) : RiskStateV2 × Bool :=
  let st := st.update_equity account.equity (some account.timestamp_day)
  if st.current_drawdown ≥ cfg.max_drawdown_pct then
    (st.apply_cooldown now cfg.cooling_off_minutes, false)
  else (st, true)

/-- Sizing configuration of the `src/src` variant (`src/src/risk/config.py`,
`PositionSizingConfig`). -/
structure PositionSizingConfigV2 where
  risk_per_trade : ℚ := 5/1000
  max_position_risk : ℚ := 2/100
  min_lot : ℚ := 1/100
  max_lot : ℚ := 50
  lot_step : ℚ := 1/100
  contract_size : ℚ := 100000
  allow_fractional : Bool := true
  deriving DecidableEq, Repr

/-- Embeds `PositionSizingConfig.validate` (`src/src/risk/config.py`, lines 20-30)
as a predicate: configurations passing the constructor checks. -/
def PositionSizingConfigV2.valid (cfg : PositionSizingConfigV2) : Prop :=
  0 < cfg.risk_per_trade ∧ cfg.risk_per_trade < 1 ∧
  0 < cfg.max_position_risk ∧ cfg.max_position_risk ≤ 1 ∧
  0 < cfg.min_lot ∧ 0 < cfg.max_lot ∧
  cfg.min_lot ≤ cfg.max_lot ∧ 0 < cfg.lot_step

instance (cfg : PositionSizingConfigV2) : Decidable cfg.valid := by
  unfold PositionSizingConfigV2.valid; infer_instance

/-- Embeds `PositionSizer._normalize_lot` (`src/src/risk/position_sizing.py`, lines
96-104): clamp into `[min_lot, max_lot]`, then round to the lot step (or to a
whole number of lots when fractional lots are disallowed). -/
def PositionSizerNormalizeLot (cfg : PositionSizingConfigV2) (lots : ℚ) : ℚ :=
  let lots := max lots cfg.min_lot
  let lots := min lots cfg.max_lot
  if cfg.allow_fractional then
    let steps := roundHalfEven (lots / cfg.lot_step)
    pyRound5 ((steps : ℚ) * cfg.lot_step)
  else (roundHalfEven lots : ℚ)

/-- Result record of the `src/src` sizer (`SizeBreakdown`). -/
structure SizeBreakdown where
  lots : ℚ
  risk_amount : ℚ
  risk_fraction : ℚ
  notional : ℚ
  deriving DecidableEq, Repr

/-- Failures of `PositionSizer.size_from_stop`: the explicit
`PositionSizingError` raises of the source plus the latent
`ZeroDivisionError` of `actual_risk / equity` at zero equity. -/
inductive PositionSizingFailure
  | entryStopNotPositive
  | pipValueNotPositive
  | stopEqualsEntry
  | zeroLotSize
  | zeroEquityDivision
  deriving DecidableEq, Repr

/-- Embeds `PositionSizer.size_from_stop` (`src/src/risk/position_sizing.py`, lines
28-64). -/
def PositionSizerSizeFromStop (cfg : PositionSizingConfigV2) (equity entry_price
    stop_price pip_value : ℚ) (contract_size : Option ℚ := none) :
    Except PositionSizingFailure SizeBreakdown :=
  if entry_price ≤ 0 ∨ stop_price ≤ 0 then .error .entryStopNotPositive
  else if pip_value ≤ 0 then .error .pipValueNotPositive
  else
    let distance := |entry_price - stop_price|
    if distance ≤ 0 then .error .stopEqualsEntry
    else
      let risk_fraction := min cfg.risk_per_trade cfg.max_position_risk
      let risk_amount := equity * risk_fraction
      let raw_lots := risk_amount / (distance * pip_value)
      let lots := PositionSizerNormalizeLot cfg raw_lots
      let notional := (contract_size.getD cfg.contract_size) * lots
      if lots ≤ 0 then .error .zeroLotSize
      else if equity = 0 then .error .zeroEquityDivision
      else
        let actual_risk := lots * distance * pip_value
        .ok { lots := lots, risk_amount := actual_risk,
              risk_fraction := actual_risk / equity, notional := notional }

/-- Evaluated trade container, from `backtesting/metrics.py` (`TradeResult`);
times are rational minute counts. -/
structure TradeResult where
  symbol : String
  direction : String
  entry_time : ℚ
  exit_time : ℚ
  entry_price : ℚ
  exit_price : ℚ
  volume : ℚ
  pnl : ℚ
  fees : ℚ
  mae : ℚ := 0
  mfe : ℚ := 0
  strategy : String := ""
  exit_reason : String := ""
  deriving DecidableEq, Repr

/-- Embeds `sum(t.pnl for t in trade_list if t.pnl > 0)` (`metrics.py`, line 111). -/
def gross_profit (trades : List TradeResult) : ℚ :=
  ((trades.filter (fun t => 0 < t.pnl)).map TradeResult.pnl).sum

/-- Embeds `sum(t.pnl for t in trade_list if t.pnl < 0)` (`metrics.py`, line 112). -/
def gross_loss (trades : List TradeResult) : ℚ :=
  ((trades.filter (fun t => t.pnl < 0)).map TradeResult.pnl).sum

/-- Value of the reported profit factor: either a finite rational or the
`float("inf")` / `np.inf` sentinel. -/
inductive ProfitFactor
  | fin (value : ℚ)
  | inf
  deriving DecidableEq, Repr

/-- The profit-factor expression of `summarize_performance`
(`backtesting/metrics.py`, lines 134-138).  By Python's conditional-expression
grouping it reads: ratio when `gross_loss != 0`, else infinity when
`gross_profit > 0`, else `0.0`. -/
def profit_factor (trades : List TradeResult) : ProfitFactor :=
  let gp := gross_profit trades
  let gl := gross_loss trades
  if gl ≠ 0 then .fin (gp / |gl|)
  else if 0 < gp then .inf
  else .fin 0

/-- Embeds `sum(max(t.pnl, 0) for t in trades_list)` of the `src/src` variant
(`src/src/backtesting/metrics.py`, line 50); trades enter through their `pnl`
fields. -/
def gross_profit_v2 (pnls : List ℚ) : ℚ := (pnls.map (fun p => max p 0)).sum

/-- Embeds `sum(min(t.pnl, 0) for t in trades_list)` (`src/src/backtesting/metrics.py`,
line 51). -/
def gross_loss_v2 (pnls : List ℚ) : ℚ := (pnls.map (fun p => min p 0)).sum

/-- The profit-factor expression of `compute_performance_report`
(`src/src/backtesting/metrics.py`, line 52): the ratio when the gross loss is
nonzero and `np.inf` otherwise — with no zero-profit special case. -/
def compute_profit_factor (pnls : List ℚ) : ProfitFactor :=
  let gp := gross_profit_v2 pnls
  let gl := gross_loss_v2 pnls
  if gl ≠ 0 then .fin (gp / |gl|) else .inf

/-- Walk-forward segment, from `backtesting/walkforward.py`
(`WalkForwardWindow`); instants are rational day counts. -/
structure WalkForwardWindow where
  in_start : ℚ
  in_end : ℚ
  out_start : ℚ
  out_end : ℚ
  deriving DecidableEq, Repr

/-- Embeds `WalkForwardPlanner.__init__` (`backtesting/walkforward.py`, lines
196-200): the constructor rejects non-positive sample sizes, recorded here as
proof fields. -/
structure WalkForwardPlanner where
  in_sample_days : ℤ
  out_sample_days : ℤ
  valid_in : 0 < in_sample_days
  valid_out : 0 < out_sample_days

/-- The `while` loop of `WalkForwardPlanner.generate`
(`backtesting/walkforward.py`, lines 203-215): emit a window whenever the full
train+test span still fits before `endT`, advancing the cursor by the
out-of-sample length. -/
def WalkForwardPlanner.generateAux (p : WalkForwardPlanner) (endT : ℚ) (cursor : ℚ) :
    List WalkForwardWindow :=
  if h : cursor + (p.in_sample_days : ℚ) + (p.out_sample_days : ℚ) ≤ endT then
    { in_start := cursor,
      in_end := cursor + (p.in_sample_days : ℚ),
      out_start := cursor + (p.in_sample_days : ℚ),
      out_end := cursor + (p.in_sample_days : ℚ) + (p.out_sample_days : ℚ) } ::
      p.generateAux endT (cursor + (p.out_sample_days : ℚ))
  else []
termination_by (⌈endT - cursor⌉).toNat
decreasing_by
  have h1 : (1 : ℤ) ≤ p.in_sample_days := p.valid_in
  have h2 : (1 : ℤ) ≤ p.out_sample_days := p.valid_out
  have hc : ((p.in_sample_days + p.out_sample_days : ℤ) : ℚ) ≤ endT - cursor := by
    push_cast
    linarith
  have hceil : (p.in_sample_days + p.out_sample_days : ℤ) ≤ ⌈endT - cursor⌉ := by
    have := Int.ceil_mono hc
    rwa [Int.ceil_intCast] at this
  have heq : ⌈endT - (cursor + (p.out_sample_days : ℚ))⌉
      = ⌈endT - cursor⌉ - p.out_sample_days := by
    rw [show endT - (cursor + (p.out_sample_days : ℚ))
        = (endT - cursor) - ((p.out_sample_days : ℤ) : ℚ) by push_cast; ring]
    exact Int.ceil_sub_int _ _
  rw [heq]
  omega

/-- Embeds `WalkForwardPlanner.generate` (`backtesting/walkforward.py`, lines
202-218): the generated schedule, or the `ValueError` message when the range
is too short for a single window. -/
def WalkForwardPlanner.generate (p : WalkForwardPlanner) (start endT : ℚ) :
    Except String (List WalkForwardWindow) :=
  let windows := p.generateAux endT start
  if windows.isEmpty then
    .error ("Walk-forward plan is empty; extend the date range.")
  else .ok windows

/-- Modelled from the spec: `BacktestSettings` is imported by
`backtesting/engine.py` from `backtesting/config.py` but the dataclass itself
is absent from the tree; its fields are exactly those the engine and
`tools/run_backtest.py` read, with the roles §4.2 and §6 of the specification
give them.  The source field `reward_risk_ratio` is rendered `reward_risk`. -/
structure BacktestSettings where
  initial_deposit : ℚ := 10000
  spread_points : ℚ := 0
  slippage_points : ℚ := 0
  commission_per_lot : ℚ := 0
  max_holding_bars : ℕ := 20
  reward_risk : ℚ := 2
  risk_free_rate : ℚ := 0
  deriving DecidableEq, Repr

/-- Internal representation of an open trade, from `backtesting/engine.py`
(`SimulatedPosition`).  `risk_position` mirrors the reference the engine keeps
to the `PositionState` it registered with the risk state; Python shares the
object, which the pure model tracks through value equality. -/
structure SimulatedPosition where
  symbol : String
  direction : SignalType
  entry_time : ℚ
  entry_price : ℚ
  volume : ℚ
  stop_loss : ℚ
  take_profit : ℚ
  strategy : String
  risk_position : Option PositionState := none
  bars_held : ℕ := 0
  mae : ℚ := 0
  mfe : ℚ := 0
  deriving DecidableEq, Repr

/-- Embeds `SimulatedPosition.update_extremes` (`engine.py`, lines 44-51). -/
def SimulatedPosition.update_extremes (p : SimulatedPosition) (high low : ℚ) :
    SimulatedPosition :=
  if p.direction = SignalType.buy then
    { p with mfe := max p.mfe (high - p.entry_price),
             mae := min p.mae (low - p.entry_price) }
  else
    { p with mfe := max p.mfe (p.entry_price - low),
             mae := min p.mae (p.entry_price - high) }

/-- Embeds `SimulatedPosition.mark_to_market` (`engine.py`, lines 53-57). -/
def SimulatedPosition.mark_to_market (p : SimulatedPosition) (price : ℚ) : ℚ :=
  if p.direction = SignalType.buy then (price - p.entry_price) * p.volume
  else (p.entry_price - price) * p.volume

/-- One OHLCV record of the per-symbol market frame (`open` is `bar_open`,
`open` being reserved in Lean). -/
structure Bar where
  time : ℚ := 0
  bar_open : ℚ := 0
  high : ℚ
  low : ℚ
  close : ℚ
  volume : ℚ := 0
  deriving DecidableEq, Repr

/-- The bar dictionary of one timeline step, `{symbol: record}`. -/
def lookupBar (bars : List (String × Bar)) (symbol : String) : Option Bar :=
  (bars.find? (fun b => b.1 = symbol)).map Prod.snd

/-- Embeds `StrategyTesterEngine._point_value` (`engine.py`, lines 86-96). -/
def pointValue (price : ℚ) : ℚ :=
  if price < 2 then 1/100000
  else if price < 20 then 1/10000
  else if price < 200 then 1/1000
  else if price < 2000 then 1/100
  else 1/10

/-- Embeds `StrategyTesterEngine._apply_costs` (`engine.py`, lines 98-108). -/
def applyCosts (settings : BacktestSettings) (price : ℚ) (signal : SignalType) : ℚ :=
  let point := pointValue price
  let spread := settings.spread_points * point
  let slippage := settings.slippage_points * point
  let adjustment := spread + slippage
  match signal with
  | .buy => price + adjustment
  | .sell => price - adjustment
  | .hold => price

/-- Embeds `StrategyTesterEngine._derive_levels` (`engine.py`, lines 110-127). -/
def deriveLevels (settings : BacktestSettings) (r : StrategyRecommendation)
    (entry_price : ℚ) : ℚ × ℚ :=
  let stop :=
    match r.stop_loss with
    | some s => s
    | none =>
        let default_distance := entry_price * (2/1000)
        if r.signal = SignalType.buy then entry_price - default_distance
        else entry_price + default_distance
  let target :=
    match r.take_profit with
    | some t => t
    | none =>
        let distance := |entry_price - stop|
        if r.signal = SignalType.buy then entry_price + distance * settings.reward_risk
        else entry_price - distance * settings.reward_risk
  (stop, target)

/-- The per-position body of `_process_open_positions` (`engine.py`, lines
186-210): track extremes, determine the exit with stops checked before
targets, count the bar, and fall back to the timeout exit at the close. -/
def processPosition (settings : BacktestSettings) (p : SimulatedPosition)
    (bar : Bar) : SimulatedPosition × Option (ℚ × String) :=
  let p := p.update_extremes bar.high bar.low
  let exit0 : Option (ℚ × String) :=
    if p.direction = SignalType.buy then
      if bar.low ≤ p.stop_loss then some (p.stop_loss, "stop")
      else if bar.high ≥ p.take_profit then some (p.take_profit, "target")
      else none
    else
      if bar.high ≥ p.stop_loss then some (p.stop_loss, "stop")
      else if bar.low ≤ p.take_profit then some (p.take_profit, "target")
      else none
  let p := { p with bars_held := p.bars_held + 1 }
  let exitF :=
    match exit0 with
    | some e => some e
    | none =>
        if p.bars_held ≥ settings.max_holding_bars then some (bar.close, "timeout")
        else none
  (p, exitF)

/-- Embeds `.value` of the `SignalType` enum members. -/
def SignalType.value : SignalType → String
  | .buy => "buy"
  | .sell => "sell"
  | .hold => "hold"

/-- State owned by `StrategyTesterEngine` plus the `RiskEngine` it drives:
`balance`, `open_positions`, `trade_log`, and the risk engine's `risk_state`
and `RiskLimits` mutable fields. -/
structure EngineState where
  balance : ℚ
  open_positions : List SimulatedPosition
  trade_log : List TradeResult
  risk_state : RiskState
  limits : RiskLimitsState
  deriving DecidableEq, Repr

/-- Embeds `StrategyTesterEngine._close_position` (`engine.py`, lines 281-313):
realize the pnl net of commission, log the `TradeResult`, drop the linked
`PositionState` from the risk state (`list.remove` removes the first
value-equal entry, dataclass equality being structural), roll the daily pnl,
and arm the cooldown after a loss.  Returns the updated state and the pnl. -/
def closePosition (settings : BacktestSettings) (st : EngineState)
    (p : SimulatedPosition) (exit_price timestamp : ℚ) (reason : String)
    (now : ℚ) : EngineState × ℚ :=
  let gross := p.mark_to_market exit_price
  let commission := settings.commission_per_lot * (p.volume / 100000)
  let pnl := gross - commission
  let trade : TradeResult :=
    { symbol := p.symbol, direction := p.direction.value,
      entry_time := p.entry_time, exit_time := timestamp,
      entry_price := p.entry_price, exit_price := exit_price,
      volume := p.volume, pnl := pnl, fees := commission,
      mae := p.mae, mfe := p.mfe, strategy := p.strategy, exit_reason := reason }
  let rs := st.risk_state
  let rs :=
    match p.risk_position with
    | some rp =>
        if rp ∈ rs.positions then { rs with positions := rs.positions.erase rp }
        else rs
    | none => rs
  let rs := { rs with daily_pnl := rs.daily_pnl + pnl }
  let ls := if pnl < 0 then RiskLimits.trigger_cooldown st.limits now else st.limits
  ({ st with trade_log := st.trade_log ++ [trade], risk_state := rs, limits := ls },
   pnl)

/-- The loop of `_process_open_positions` (`engine.py`, lines 184-215) over a
snapshot of the open list: closed positions are realized into the balance,
surviving ones are kept in order.  A position whose symbol has no bar would be
a Python `KeyError`; that branch keeps it untouched and is unreachable from
`run`, whose bar dictionaries carry every market symbol. -/
def processOpenPositionsAux (settings : BacktestSettings)
    (bars : List (String × Bar)) (timestamp now : ℚ) :
    List SimulatedPosition → EngineState → List SimulatedPosition × EngineState
  | [], st => ([], st)
  | p :: rest, st =>
      match lookupBar bars p.symbol with
      | none =>
          let (kept, st2) := processOpenPositionsAux settings bars timestamp now rest st
          (p :: kept, st2)
      | some bar =>
          match processPosition settings p bar with
          | (p2, none) =>
              let (kept, st2) := processOpenPositionsAux settings bars timestamp now rest st
              (p2 :: kept, st2)
          | (p2, some (price, reason)) =>
              let (st2, pnl) := closePosition settings st p2 price timestamp reason now
              let st3 := { st2 with balance := st2.balance + pnl }
              let (kept, st4) := processOpenPositionsAux settings bars timestamp now rest st3
              (kept, st4)

/-- Embeds `_process_open_positions` as a state transformer. -/
def processOpenPositions (settings : BacktestSettings)
    (bars : List (String × Bar)) (timestamp now : ℚ) (st : EngineState) :
    EngineState :=
  let (kept, st2) := processOpenPositionsAux settings bars timestamp now st.open_positions st
  { st2 with open_positions := kept }

/-- Replace the first value-equal entry, standing for Python's in-place
mutation of the shared `PositionState` object inside `risk_state.positions`. -/
def replaceFirst : List PositionState → PositionState → PositionState → List PositionState
  | [], _, _ => []
  | x :: xs, a, b => if x = a then b :: xs else x :: replaceFirst xs a b

/-- Embeds `StrategyTesterEngine._mark_positions` (`engine.py`, lines 217-226):
aggregate unrealised pnl while refreshing each linked `PositionState` (shared
with the risk state) at the bar close.  Missing bars are unreachable from
`run`, as above. -/
def markPositionsAux (bars : List (String × Bar)) :
    List SimulatedPosition → RiskState → ℚ × List SimulatedPosition × RiskState
  | [], rs => (0, [], rs)
  | p :: rest, rs =>
      match lookupBar bars p.symbol with
      | none =>
          let (u, l, rs2) := markPositionsAux bars rest rs
          (u, p :: l, rs2)
      | some bar =>
          let market_price := bar.close
          let unreal := p.mark_to_market market_price
          match p.risk_position with
          | none =>
              let (u, l, rs2) := markPositionsAux bars rest rs
              (unreal + u, p :: l, rs2)
          | some rp =>
              let rp2 := { rp with current_price := market_price, profit := unreal }
              let rs := { rs with positions := replaceFirst rs.positions rp rp2 }
              let p2 := { p with risk_position := some rp2 }
              let (u, l, rs2) := markPositionsAux bars rest rs
              (unreal + u, p2 :: l, rs2)

/-- Embeds `_mark_positions` as a state transformer returning the unrealised pnl. -/
def markPositions (bars : List (String × Bar)) (st : EngineState) :
    ℚ × EngineState :=
  let (u, l, rs) := markPositionsAux bars st.open_positions st.risk_state
  (u, { st with open_positions := l, risk_state := rs })

/-- Embeds `StrategyTesterEngine._has_open_position` (`engine.py`, lines 275-279). -/
def hasOpenPosition (positions : List SimulatedPosition) (symbol : String)
    (direction : SignalType) : Bool :=
  positions.any (fun p => decide (p.symbol = symbol ∧ p.direction = direction))

/-- Embeds `StrategyTesterEngine._execute_recommendations` (`engine.py`, lines
228-273): per actionable recommendation — skip HOLD signals, unknown symbols,
already-open (symbol, direction) pairs, risk rejections and non-positive
sizes; otherwise open a `SimulatedPosition` at the cost-adjusted close with
derived levels, registering a `PositionState` with the risk state.  A sizing
`ZeroDivisionError` aborts the run, hence the `Except`. -/
def executeRecommendations (cfg : RiskConfig) (settings : BacktestSettings)
    (bars : List (String × Bar)) (timestamp now : ℚ) :
    List StrategyRecommendation → EngineState → Except SizingError EngineState
  | [], st => .ok st
  | r :: rest, st =>
      if r.signal = SignalType.hold then
        executeRecommendations cfg settings bars timestamp now rest st
      else
        match lookupBar bars r.symbol with
        | none => executeRecommendations cfg settings bars timestamp now rest st
        | some bar =>
            if hasOpenPosition st.open_positions r.symbol r.signal then
              executeRecommendations cfg settings bars timestamp now rest st
            else
              match RiskEngine.validate_trade cfg st.risk_state st.limits now with
              | (ls2, false, _) =>
                  executeRecommendations cfg settings bars timestamp now rest
                    { st with limits := ls2 }
              | (ls2, true, _) =>
                  let st := { st with limits := ls2 }
                  match riskEngineCalculatePositionSize cfg st.risk_state r with
                  | .error e => .error e
                  | .ok position_size =>
                      if position_size ≤ 0 then
                        executeRecommendations cfg settings bars timestamp now rest st
                      else
                        let entry_price := applyCosts settings bar.close r.signal
                        let levels := deriveLevels settings r entry_price
                        let rp : PositionState :=
                          { symbol := r.symbol, volume := position_size,
                            entry_price := entry_price, current_price := entry_price,
                            profit := 0, timestamp := now }
                        let position : SimulatedPosition :=
                          { symbol := r.symbol, direction := r.signal,
                            entry_time := timestamp, entry_price := entry_price,
                            volume := position_size, stop_loss := levels.1,
                            take_profit := levels.2, strategy := "unknown",
                            risk_position := some rp }
                        let rs :=
                          { st.risk_state with
                              positions := st.risk_state.positions ++ [rp] }
                        executeRecommendations cfg settings bars timestamp now rest
                          { st with risk_state := rs,
                                    open_positions := st.open_positions ++ [position] }

/-- One iteration of the bar loop of `StrategyTesterEngine.run` (`engine.py`,
lines 156-171): process exits, mark to market, refresh the account snapshot,
then execute the strategy recommendations for the bar.  The equity point
appended afterwards lives outside this state. -/
def stepBar (cfg : RiskConfig) (settings : BacktestSettings)
    (bars : List (String × Bar)) (recs : List StrategyRecommendation)
    (timestamp now : ℚ) (st : EngineState) : Except SizingError EngineState :=
  let st := processOpenPositions settings bars timestamp now st
  let (unrealised, st) := markPositions bars st
  let equity := st.balance + unrealised
  let account : AccountState :=
    { balance := st.balance, equity := equity, margin := 0,
      free_margin := equity, margin_level := 0, timestamp := timestamp }
  let st := { st with risk_state := st.risk_state.update_account account }
  executeRecommendations cfg settings bars timestamp now recs st

/-- Embeds `StrategyTesterEngine._liquidate_all` (`engine.py`, lines 315-320):
force-close every remaining position at the bar close with reason "close",
then clear the open list. -/
def liquidateAllAux (settings : BacktestSettings) (bars : List (String × Bar))
    (timestamp now : ℚ) : List SimulatedPosition → EngineState → EngineState
  | [], st => st
  | p :: rest, st =>
      match lookupBar bars p.symbol with
      | none => liquidateAllAux settings bars timestamp now rest st
      | some bar =>
          let (st2, pnl) := closePosition settings st p bar.close timestamp ("close") now
          let st3 := { st2 with balance := st2.balance + pnl }
          liquidateAllAux settings bars timestamp now rest st3

/-- Embeds `_liquidate_all` as a state transformer (ends with `open_positions.clear()`). -/
def liquidateAll (settings : BacktestSettings) (bars : List (String × Bar))
    (timestamp now : ℚ) (st : EngineState) : EngineState :=
  let st2 := liquidateAllAux settings bars timestamp now st.open_positions st
  { st2 with open_positions := [] }

/-- The engine state after `StrategyTesterEngine.__init__` (`engine.py`,
lines 72-83) with a fresh `RiskEngine`. -/
def initState (settings : BacktestSettings) : EngineState :=
  { balance := settings.initial_deposit, open_positions := [], trade_log := [],
    risk_state := {}, limits := {} }

/-- States the simulator's bar loop can reach from a fresh engine: the
initial state, successful bar steps over arbitrary market data and
recommendations, and the terminal liquidation. -/
inductive Reachable (cfg : RiskConfig) (settings : BacktestSettings) :
    EngineState → Prop
  | init : Reachable cfg settings (initState settings)
  | step {s s' : EngineState} (bars : List (String × Bar))
      (recs : List StrategyRecommendation) (timestamp now : ℚ) :
      Reachable cfg settings s →
      stepBar cfg settings bars recs timestamp now s = .ok s' →
      Reachable cfg settings s'
  | liquidate {s : EngineState} (bars : List (String × Bar)) (timestamp now : ℚ) :
      Reachable cfg settings s →
      Reachable cfg settings (liquidateAll settings bars timestamp now s)

/-- The (symbol, direction) key of an open position. -/
def positionKey (p : SimulatedPosition) : String × SignalType := (p.symbol, p.direction)

/-- At most one open position per (symbol, direction) pair. -/
def PositionKeysNodup (positions : List SimulatedPosition) : Prop :=
  (positions.map positionKey).Nodup

/-- C1 counterexample: with the drawdown limit breached while a cooldown is
also still running, `RiskEngine.validate_trade` rejects with the drawdown
reason, whereas the claimed cooldown-first order (`specValidateTradeOrder`)
would report the cooldown reason — the implemented order is not cooldown →
drawdown → daily loss → exposure. -/
theorem c1_counterexample :
    RiskEngine.validate_trade {} c1State c1Limits 10
      = (c1Limits, false, LimitMsg.drawdownExceeded (30/100)) ∧
    RiskLimits.check_cooldown {} c1Limits 10
      = (c1Limits, false, LimitMsg.cooldownRemaining 50) ∧
    specValidateTradeOrder {} c1State c1Limits 10
      = (c1Limits, false, LimitMsg.cooldownRemaining 50) ∧
    LimitMsg.drawdownExceeded (30/100) ≠ LimitMsg.cooldownRemaining 50 := by
  refine ⟨?_, ?_, ?_, by simp⟩ <;>
    norm_num [RiskEngine.validate_trade, specValidateTradeOrder,
      RiskLimits.check_drawdown, RiskLimits.check_daily_loss,
      RiskLimits.check_exposure, RiskLimits.require_account_state,
      RiskState.get_total_exposure, RiskLimits.check_cooldown, c1State, c1Limits]

/-- C1 (amended): `RiskEngine.validate_trade` evaluates the four checks in
the fixed order drawdown → daily loss → exposure → cooldown; the first
failing check ends validation immediately with that check's reason, and the
result is approval exactly when all four checks pass. -/
theorem c1_validation_order (cfg : RiskConfig) (rs : RiskState)
    (ls : RiskLimitsState) (now : ℚ) :
    (∀ msg, RiskLimits.check_drawdown cfg rs = (false, msg) →
        RiskEngine.validate_trade cfg rs ls now = (ls, false, msg)) ∧
    (∀ msg, (RiskLimits.check_drawdown cfg rs).1 = true →
        RiskLimits.check_daily_loss cfg rs = (false, msg) →
        RiskEngine.validate_trade cfg rs ls now = (ls, false, msg)) ∧
    (∀ msg, (RiskLimits.check_drawdown cfg rs).1 = true →
        (RiskLimits.check_daily_loss cfg rs).1 = true →
        RiskLimits.check_exposure cfg rs = (false, msg) →
        RiskEngine.validate_trade cfg rs ls now = (ls, false, msg)) ∧
    (∀ ls2 msg, (RiskLimits.check_drawdown cfg rs).1 = true →
        (RiskLimits.check_daily_loss cfg rs).1 = true →
        (RiskLimits.check_exposure cfg rs).1 = true →
        RiskLimits.check_cooldown cfg ls now = (ls2, false, msg) →
        RiskEngine.validate_trade cfg rs ls now = (ls2, false, msg)) ∧
    ((RiskEngine.validate_trade cfg rs ls now).2.1 = true ↔
        (RiskLimits.check_drawdown cfg rs).1 = true ∧
        (RiskLimits.check_daily_loss cfg rs).1 = true ∧
        (RiskLimits.check_exposure cfg rs).1 = true ∧
        (RiskLimits.check_cooldown cfg ls now).2.1 = true) := by
  unfold RiskEngine.validate_trade
  rcases h1 : RiskLimits.check_drawdown cfg rs with ⟨b1, m1⟩
  rcases h2 : RiskLimits.check_daily_loss cfg rs with ⟨b2, m2⟩
  rcases h3 : RiskLimits.check_exposure cfg rs with ⟨b3, m3⟩
  rcases h4 : RiskLimits.check_cooldown cfg ls now with ⟨ls2, b4, m4⟩
  cases b1 <;> cases b2 <;> cases b3 <;> cases b4 <;> simp_all

/-- C1 witness: the amended order theorem applied at the counterexample
state, where the drawdown check is the failing one. -/
theorem c1_validation_order_witness :
    RiskEngine.validate_trade {} c1State c1Limits 10
      = (c1Limits, false, LimitMsg.drawdownExceeded (30/100)) :=
  (c1_validation_order {} c1State c1Limits 10).1
    (LimitMsg.drawdownExceeded (30/100))
    (by norm_num [RiskLimits.check_drawdown, c1State])

/-- BUY position of the claim C2 scenario: entry 1.1000, stop 1.0950, target
1.1100. -/
def c2Position : SimulatedPosition :=
  { symbol := "EURUSD", direction := SignalType.buy, entry_time := 0,
    entry_price := 11/10, volume := 1, stop_loss := 1095/1000,
    take_profit := 111/100, strategy := "test" }

/-- Bar of the claim C2 scenario: low 1.0940 (through the stop) and high
1.1150 (through the target) on the same bar. -/
def c2Bar : Bar :=
  { high := 1115/1000, low := 1094/1000, close := 11/10 }

/-- C2: on each bar a BUY exits at the stop (reason "stop") whenever the low
touches it — even if the high also reaches the target — else at the target
(reason "target") when the high reaches it, else at the close (reason
"timeout") once the held-bar count (incremented for this bar) reaches
`max_holding_bars`, else stays open; SELL positions follow the mirror rule;
and the scenario BUY 1.1000/1.0950/1.1100 on a bar with low 1.0940, high
1.1150 exits at 1.0950 with reason "stop". -/
theorem c2_exit_priority (settings : BacktestSettings) (p : SimulatedPosition)
    (bar : Bar) :
    (p.direction = SignalType.buy →
      (bar.low ≤ p.stop_loss →
        (processPosition settings p bar).2 = some (p.stop_loss, "stop")) ∧
      (¬ bar.low ≤ p.stop_loss → bar.high ≥ p.take_profit →
        (processPosition settings p bar).2 = some (p.take_profit, "target")) ∧
      (¬ bar.low ≤ p.stop_loss → ¬ bar.high ≥ p.take_profit →
        p.bars_held + 1 ≥ settings.max_holding_bars →
        (processPosition settings p bar).2 = some (bar.close, "timeout")) ∧
      (¬ bar.low ≤ p.stop_loss → ¬ bar.high ≥ p.take_profit →
        p.bars_held + 1 < settings.max_holding_bars →
        (processPosition settings p bar).2 = none)) ∧
    (p.direction = SignalType.sell →
      (bar.high ≥ p.stop_loss →
        (processPosition settings p bar).2 = some (p.stop_loss, "stop")) ∧
      (¬ bar.high ≥ p.stop_loss → bar.low ≤ p.take_profit →
        (processPosition settings p bar).2 = some (p.take_profit, "target")) ∧
      (¬ bar.high ≥ p.stop_loss → ¬ bar.low ≤ p.take_profit →
        p.bars_held + 1 ≥ settings.max_holding_bars →
        (processPosition settings p bar).2 = some (bar.close, "timeout")) ∧
      (¬ bar.high ≥ p.stop_loss → ¬ bar.low ≤ p.take_profit →
        p.bars_held + 1 < settings.max_holding_bars →
        (processPosition settings p bar).2 = none)) ∧
    (processPosition {} c2Position c2Bar).2 = some (1095/1000, "stop") := by
  refine ⟨fun hdir => ⟨fun h1 => ?_, fun h1 h2 => ?_, fun h1 h2 h3 => ?_,
      fun h1 h2 h3 => ?_⟩,
    fun hdir => ⟨fun h1 => ?_, fun h1 h2 => ?_, fun h1 h2 h3 => ?_,
      fun h1 h2 h3 => ?_⟩, ?_⟩
  · simp [processPosition, SimulatedPosition.update_extremes, hdir, h1]
  · simp [processPosition, SimulatedPosition.update_extremes, hdir, h1, h2]
  · simp [processPosition, SimulatedPosition.update_extremes, hdir, h1, h2, h3]
  · simp [processPosition, SimulatedPosition.update_extremes, hdir, h1, h2,
      not_le.mpr h3]
  · simp [processPosition, SimulatedPosition.update_extremes, hdir, h1]
  · simp [processPosition, SimulatedPosition.update_extremes, hdir, h1, h2]
  · simp [processPosition, SimulatedPosition.update_extremes, hdir, h1, h2, h3]
  · simp [processPosition, SimulatedPosition.update_extremes, hdir, h1, h2,
      not_le.mpr h3]
  · norm_num [processPosition, SimulatedPosition.update_extremes, c2Position, c2Bar]

/-- C2 witness: the theorem's scenario component at the concrete inputs. -/
theorem c2_exit_priority_witness :
    (processPosition {} c2Position c2Bar).2 = some (1095/1000, "stop") :=
  (c2_exit_priority {} c2Position c2Bar).2.2

/-- C3 counterexample: at entry price 0 with a nonzero stop distance (an
invalid input), `calculate_position_size` hits the max-position clamp's
division by `entry_price * contract_size` — in Python a `ZeroDivisionError` —
instead of returning the minimum lot, so sizing does not return an in-bounds
volume for every input. -/
theorem c3_counterexample :
    calculate_position_size 10000 0 (1/20) {} (1/10000) 100000
      = .error SizingError.zeroDivision ∧
    |(0 : ℚ) - 1/20| ≠ 0 := by
  constructor
  · norm_num [calculate_position_size]
  · norm_num

/-- C3 (amended): whenever the two divisors are nonzero (`point_value ≠ 0`
and `entry_price * contract_size ≠ 0`), sizing returns a volume inside the
hardcoded `[0.01, 2.0]` window, and a zero stop distance yields the minimum
0.01 before any division; with a zero `entry_price * contract_size` product
and nonzero stop distance the computation instead raises a division error. -/
theorem c3_sizing_bounds (balance entry stop point contract : ℚ)
    (cfg : RiskConfig) (hp : point ≠ 0) (hc : entry * contract ≠ 0) :
    ∃ v, calculate_position_size balance entry stop cfg point contract = .ok v ∧
      1/100 ≤ v ∧ v ≤ 2 ∧ (|entry - stop| = 0 → v = 1/100) := by
  by_cases hd : |entry - stop| = 0
  · refine ⟨1/100, ?_, le_refl _, by norm_num, fun _ => rfl⟩
    simp [calculate_position_size, hd]
  · by_cases hpips : |entry - stop| / point = 0
    · refine ⟨1/100, ?_, le_refl _, by norm_num, fun h => absurd h hd⟩
      simp [calculate_position_size, hd, hp, hpips]
    · refine ⟨max (1/100) (min (balance * cfg.risk_per_trade_pct /
          (|entry - stop| / point * 10)) (min (balance * (2/100) /
          (entry * contract)) 2)), ?_, le_max_left _ _, ?_, fun h => absurd h hd⟩
      · simp [calculate_position_size, hd, hp, hpips, hc]
      · apply max_le (by norm_num)
        exact le_trans (min_le_right _ _) (min_le_right _ _)

/-- C3 witness: the bounds theorem applied at a concrete zero-stop-distance
input, where it yields exactly the minimum lot. -/
theorem c3_sizing_bounds_witness :
    ∃ v, calculate_position_size 10000 1 1 {} (1/10000) 100000 = .ok v ∧
      1/100 ≤ v ∧ v ≤ 2 ∧ (|(1 : ℚ) - 1| = 0 → v = 1/100) :=
  c3_sizing_bounds 10000 1 1 (1/10000) 100000 {} (by norm_num) (by norm_num)

/-- Risk state of the C4 counterexample: high-water mark 100, so an equity
reading of 80 recomputes a drawdown of exactly the default 20% limit. -/
def c4StateV2 : RiskStateV2 :=
  { peak_equity := 100, trough_equity := 100 }

/-- Account snapshot of the C4 counterexample. -/
def c4AccountV2 : AccountStateV2 := { balance := 80, equity := 80 }

/-- C4 counterexample: with the recomputed drawdown exactly equal to
`max_drawdown_pct`, the `src/src` drawdown check (`_check_drawdown`, which
compares with `≥`) fails — the claim says the check passes at the boundary. -/
theorem c4_counterexample :
    (c4StateV2.update_equity 80 (some 0)).current_drawdown
      = ({} : DrawdownConfigV2).max_drawdown_pct ∧
    (RiskLimitEnforcerCheckDrawdown {} c4StateV2 c4AccountV2 0).2 = false := by
  constructor
  · norm_num [RiskStateV2.update_equity, RiskStateV2.reset_daily_if_needed, c4StateV2]
  · norm_num [RiskLimitEnforcerCheckDrawdown, RiskStateV2.update_equity,
      RiskStateV2.reset_daily_if_needed, RiskStateV2.apply_cooldown,
      c4StateV2, c4AccountV2]

/-- C4 (amended): the mt5 `check_drawdown` fails exactly when the recorded
drawdown is strictly above `max_drawdown_pct` (so it passes at equality),
while the `src/src` `_check_drawdown` fails already when the recomputed
drawdown equals the limit (non-strict `≥`). -/
theorem c4_drawdown_boundary (cfg : RiskConfig) (rs : RiskState)
    (cfg2 : DrawdownConfigV2) (st : RiskStateV2) (a : AccountStateV2) (now : ℚ) :
    ((RiskLimits.check_drawdown cfg rs).1 = false ↔
      rs.max_drawdown > cfg.max_drawdown_pct) ∧
    ((RiskLimitEnforcerCheckDrawdown cfg2 st a now).2 = false ↔
      (st.update_equity a.equity (some a.timestamp_day)).current_drawdown
        ≥ cfg2.max_drawdown_pct) := by
  constructor
  · unfold RiskLimits.check_drawdown
    split_ifs with h <;> simp [h]
  · simp only [RiskLimitEnforcerCheckDrawdown]
    split_ifs with h <;> simp [h]

/-- Risk state of the C5 counterexample: a negative daily pnl recorded under
a snapshot taken at time 0 (day 0). -/
def c5State : RiskState :=
  { account_state := some { balance := 10000, equity := 10000, margin := 0,
                            free_margin := 10000, margin_level := 0, timestamp := 0 }
    positions := []
    daily_pnl := -50
    max_drawdown := 0
    peak_equity := 10000 }

/-- Account snapshot of the C5 counterexample, taken 1440 minutes (one
calendar day) after the stored one. -/
def c5Account : AccountState :=
  { balance := 10000, equity := 10000, margin := 0, free_margin := 10000,
    margin_level := 0, timestamp := 1440 }

/-- C5 counterexample: feeding the mt5 `update_account` a snapshot from the
next calendar day leaves `daily_pnl` at −50 — the method performs no daily
session reset at all, contrary to the claim. -/
theorem c5_counterexample :
    (c5State.update_account c5Account).daily_pnl = -50 ∧
    ((-50 : ℚ) ≠ 0) ∧
    c5Account.timestamp
      - ((c5State.account_state.map AccountState.timestamp).getD 0) = 1440 := by
  refine ⟨?_, by norm_num, by norm_num [c5State, c5Account]⟩
  norm_num [RiskState.update_account, c5State, c5Account]

/-- C5 (amended): mt5's `update_account` sets the peak to
`max(previous peak, equity)`, recomputes the drawdown as
`(peak − equity)/peak` when the new peak is positive and leaves it unchanged
otherwise, and never touches `daily_pnl` (it tracks no daily session); the
daily rollover — zeroing the daily loss and re-baselining from the snapshot
equity when the calendar day changes — exists only in the `src/src`
`update_equity`. -/
theorem c5_account_update (st : RiskState) (a : AccountState)
    (st2 : RiskStateV2) (equity : ℚ) (d : ℤ) :
    (st.update_account a).peak_equity = max st.peak_equity a.equity ∧
    (0 < max st.peak_equity a.equity →
      (st.update_account a).max_drawdown
        = (max st.peak_equity a.equity - a.equity) / max st.peak_equity a.equity) ∧
    (max st.peak_equity a.equity ≤ 0 →
      (st.update_account a).max_drawdown = st.max_drawdown) ∧
    (st.update_account a).daily_pnl = st.daily_pnl ∧
    (d ≠ st2.daily_session →
      (st2.update_equity equity (some d)).daily_loss = 0 ∧
      (st2.update_equity equity (some d)).daily_start_equity = equity) := by
  have hmax : (if a.equity > st.peak_equity then a.equity else st.peak_equity)
      = max st.peak_equity a.equity := by
    rcases le_or_lt a.equity st.peak_equity with h | h
    · rw [if_neg (not_lt.mpr h), max_eq_left h]
    · rw [if_pos h, max_eq_right h.le]
  refine ⟨?_, fun hpos => ?_, fun hneg => ?_, ?_, fun hd => ?_⟩
  · simp only [RiskState.update_account]
    split_ifs <;> simp_all [hmax]
  · simp only [RiskState.update_account]
    split_ifs with h1 h2 h2 <;> simp_all [hmax] <;> linarith
  · simp only [RiskState.update_account]
    split_ifs with h1 h2 h2 <;> simp_all [hmax] <;> linarith
  · simp only [RiskState.update_account]
    split_ifs <;> rfl
  · simp only [RiskStateV2.update_equity, RiskStateV2.reset_daily_if_needed]
    split_ifs <;> simp_all

/-- Fresh `src/src` risk state used in the C5 witness: session day 0 with an
accumulated daily loss. -/
def c5StateV2 : RiskStateV2 :=
  { peak_equity := 200, trough_equity := 150, daily_loss := 7, daily_session := 0 }

/-- C5 witness: the amended theorem applied at a concrete day rollover, where
the `src/src` state zeroes its daily loss and re-baselines. -/
theorem c5_account_update_witness :
    (c5StateV2.update_equity 100 (some 1)).daily_loss = 0 ∧
    (c5StateV2.update_equity 100 (some 1)).daily_start_equity = 100 :=
  (c5_account_update c5State c5Account c5StateV2 100 1).2.2.2.2 (by decide)

/-- C6: after `trigger_cooldown` at time `t`, `check_cooldown` at `t + e`
fails and reports the remaining minutes whenever `e` is strictly below the
configured cooldown, and passes — clearing the cooldown flag back to idle —
as soon as `e` reaches it; the `src/src` `apply_cooldown`/`in_cooldown` pair
behaves the same way. -/
theorem c6_cooldown_machine (cfg : RiskConfig) (ls : RiskLimitsState)
    (st : RiskStateV2) (t e : ℚ) (m : ℤ) :
    (e < (cfg.cooldown_after_loss_minutes : ℚ) →
      RiskLimits.check_cooldown cfg (RiskLimits.trigger_cooldown ls t) (t + e)
        = (RiskLimits.trigger_cooldown ls t, false,
            LimitMsg.cooldownRemaining ((cfg.cooldown_after_loss_minutes : ℚ) - e))) ∧
    ((cfg.cooldown_after_loss_minutes : ℚ) ≤ e →
      RiskLimits.check_cooldown cfg (RiskLimits.trigger_cooldown ls t) (t + e)
        = ({ last_loss_time := some t, cooldown_active := false }, true,
            LimitMsg.ok)) ∧
    (e < (m : ℚ) → (st.apply_cooldown t m).in_cooldown (t + e)
        = (st.apply_cooldown t m, true)) ∧
    ((m : ℚ) ≤ e → (st.apply_cooldown t m).in_cooldown (t + e)
        = ({ st with cooldown_until := none }, false)) := by
  refine ⟨fun h => ?_, fun h => ?_, fun h => ?_, fun h => ?_⟩
  · simp [RiskLimits.check_cooldown, RiskLimits.trigger_cooldown]
    exact h
  · simp [RiskLimits.check_cooldown, RiskLimits.trigger_cooldown]
    exact h
  · simp [RiskStateV2.apply_cooldown, RiskStateV2.in_cooldown]
    exact h
  · simp [RiskStateV2.apply_cooldown, RiskStateV2.in_cooldown]
    exact h

/-- C6 witness: a loss at minute 0 with the default 60-minute cooldown —
rejected at minute 10 with 50 minutes remaining, passed (and reset to idle)
at minute 61. -/
theorem c6_cooldown_machine_witness :
    RiskLimits.check_cooldown {} (RiskLimits.trigger_cooldown {} 0) (0 + 10)
      = (RiskLimits.trigger_cooldown {} 0, false, LimitMsg.cooldownRemaining 50) ∧
    RiskLimits.check_cooldown {} (RiskLimits.trigger_cooldown {} 0) (0 + 61)
      = ({ last_loss_time := some 0, cooldown_active := false }, true,
          LimitMsg.ok) :=
  ⟨by
    have h := (c6_cooldown_machine {} {} {} 0 10 60).1 (by norm_num)
    norm_num at h
    norm_num
    exact h,
   (c6_cooldown_machine {} {} {} 0 61 60).2.1 (by norm_num)⟩

/-- C7 counterexample: on an empty trade list (no profit and no loss) the
`src/src` report computes `np.inf`, not 0 — the zero-profit case is not
special-cased there. -/
theorem c7_counterexample :
    compute_profit_factor [] = ProfitFactor.inf ∧
    gross_profit_v2 [] = 0 ∧ gross_loss_v2 [] = 0 ∧
    ProfitFactor.inf ≠ ProfitFactor.fin 0 := by
  refine ⟨?_, rfl, rfl, by simp⟩
  simp [compute_profit_factor, gross_loss_v2]

/-- C7 (amended): mt5's `summarize_performance` profit factor is the ratio
`gross profit / |gross loss|` whenever the gross loss is nonzero, is 0 when
there is neither profit nor loss, and is the infinite sentinel exactly when
the gross profit is positive and the gross loss zero; the `src/src`
`compute_performance_report` instead reports infinity whenever the gross loss
is zero, including the profitless case. -/
theorem c7_profit_factor (trades : List TradeResult) (pnls : List ℚ) :
    (gross_loss trades ≠ 0 →
      profit_factor trades
        = ProfitFactor.fin (gross_profit trades / |gross_loss trades|)) ∧
    (gross_profit trades = 0 → gross_loss trades = 0 →
      profit_factor trades = ProfitFactor.fin 0) ∧
    (profit_factor trades = ProfitFactor.inf ↔
      0 < gross_profit trades ∧ gross_loss trades = 0) ∧
    (compute_profit_factor pnls = ProfitFactor.inf ↔ gross_loss_v2 pnls = 0) := by
  refine ⟨fun hgl => ?_, fun hgp hgl => ?_, ?_, ?_⟩
  · simp [profit_factor, hgl]
  · simp [profit_factor, hgp, hgl]
  · simp only [profit_factor]
    split_ifs with h1 h2 <;> simp_all
  · simp only [compute_profit_factor]
    split_ifs with h1 <;> simp_all

/-- One losing trade used in the C7 witness. -/
def c7Trade : TradeResult :=
  { symbol := "EURUSD", direction := "buy", entry_time := 0, exit_time := 1,
    entry_price := 1, exit_price := 1, volume := 1, pnl := -5, fees := 0 }

/-- C7 witness: the amended theorem applied to a single losing trade, whose
profit factor is the finite ratio 0 / |−5|. -/
theorem c7_profit_factor_witness :
    profit_factor [c7Trade]
      = ProfitFactor.fin (gross_profit [c7Trade] / |gross_loss [c7Trade]|) :=
  (c7_profit_factor [c7Trade] []).1
    (by norm_num [gross_loss, c7Trade])

/-- The loop measure drops at every iteration of `generateAux`. -/
lemma generateAux_measure_lt (p : WalkForwardPlanner) (endT cursor : ℚ)
    (h : cursor + (p.in_sample_days : ℚ) + (p.out_sample_days : ℚ) ≤ endT) :
    (⌈endT - (cursor + (p.out_sample_days : ℚ))⌉).toNat < (⌈endT - cursor⌉).toNat := by
  have h1 : (1 : ℤ) ≤ p.in_sample_days := p.valid_in
  have h2 : (1 : ℤ) ≤ p.out_sample_days := p.valid_out
  have hc : ((p.in_sample_days + p.out_sample_days : ℤ) : ℚ) ≤ endT - cursor := by
    push_cast
    linarith
  have hceil : (p.in_sample_days + p.out_sample_days : ℤ) ≤ ⌈endT - cursor⌉ := by
    have := Int.ceil_mono hc
    rwa [Int.ceil_intCast] at this
  have heq : ⌈endT - (cursor + (p.out_sample_days : ℚ))⌉
      = ⌈endT - cursor⌉ - p.out_sample_days := by
    rw [show endT - (cursor + (p.out_sample_days : ℚ))
        = (endT - cursor) - ((p.out_sample_days : ℤ) : ℚ) by push_cast; ring]
    exact Int.ceil_sub_int _ _
  rw [heq]
  omega

/-- Structural facts about every schedule `generateAux` emits: each window's
test start coincides with its train end, windows start no earlier than the
cursor, and starts strictly increase. -/
lemma generateAux_props (p : WalkForwardPlanner) (endT : ℚ) :
    ∀ (fuel : ℕ) (cursor : ℚ), (⌈endT - cursor⌉).toNat ≤ fuel →
      (∀ w ∈ p.generateAux endT cursor,
        w.out_start = w.in_end ∧ cursor ≤ w.in_start) ∧
      (p.generateAux endT cursor).Pairwise (fun a b => a.in_start < b.in_start) := by
  intro fuel
  induction fuel with
  | zero =>
      intro cursor hfuel
      rw [WalkForwardPlanner.generateAux]
      split_ifs with hcond
      · exfalso
        have h1 : (1 : ℤ) ≤ p.in_sample_days := p.valid_in
        have h2 : (1 : ℤ) ≤ p.out_sample_days := p.valid_out
        have hc : ((p.in_sample_days + p.out_sample_days : ℤ) : ℚ) ≤ endT - cursor := by
          push_cast
          linarith
        have hceil : (p.in_sample_days + p.out_sample_days : ℤ) ≤ ⌈endT - cursor⌉ := by
          have := Int.ceil_mono hc
          rwa [Int.ceil_intCast] at this
        omega
      · simp
  | succ n ih =>
      intro cursor hfuel
      rw [WalkForwardPlanner.generateAux]
      split_ifs with hcond
      · have hlt := generateAux_measure_lt p endT cursor hcond
        have hrec := ih (cursor + (p.out_sample_days : ℚ)) (by omega)
        have hdpos : (0 : ℚ) < (p.out_sample_days : ℚ) := by
          exact_mod_cast p.valid_out
        refine ⟨?_, ?_⟩
        · intro w hw
          rcases List.mem_cons.mp hw with hw | hw
          · subst hw
            exact ⟨rfl, le_refl _⟩
          · rcases hrec.1 w hw with ⟨h1, h2⟩
            exact ⟨h1, by linarith⟩
        · refine List.Pairwise.cons ?_ hrec.2
          intro w hw
          have := (hrec.1 w hw).2
          simpa using lt_of_lt_of_le (by linarith) this
      · simp

/-- Planner of the claim C8 scenario: train 60 days, test 30 days (the
cursor step is the test length). -/
def c8Planner : WalkForwardPlanner :=
  { in_sample_days := 60, out_sample_days := 30,
    valid_in := by norm_num, valid_out := by norm_num }

/-- C8 counterexample: over 2024-01-01 (day 0) to 2024-04-01 (day 91) with
train 60 / test 30 / step 30, `generate` yields exactly ONE window
(train day 0-60, test day 60-90) — a second window would need the range to
reach day 120 (2024-04-30) — so the claimed count of 2 is wrong. -/
theorem c8_counterexample :
    c8Planner.generate 0 91
      = Except.ok [{ in_start := 0, in_end := 60, out_start := 60, out_end := 90 }] ∧
    [({ in_start := 0, in_end := 60, out_start := 60, out_end := 90 } :
        WalkForwardWindow)].length ≠ 2 := by
  have hin : ((c8Planner.in_sample_days : ℤ) : ℚ) = 60 := rfl
  have hout : ((c8Planner.out_sample_days : ℤ) : ℚ) = 30 := rfl
  have h2 : c8Planner.generateAux 91 30 = [] := by
    rw [WalkForwardPlanner.generateAux, hin, hout]
    norm_num
  have h1 : c8Planner.generateAux 91 0
      = [{ in_start := 0, in_end := 60, out_start := 60, out_end := 90 }] := by
    rw [WalkForwardPlanner.generateAux, hin, hout]
    norm_num [h2]
  constructor
  · simp [WalkForwardPlanner.generate, h1]
  · simp

/-- C8 (amended): the 2024-01-01 → 2024-04-01 scenario with train 60 / test
30 produces exactly one window whose test start equals its train end; for
every planner, a range too short for a single window makes `generate` fail
with the configuration error instead of returning an empty list; and every
generated schedule has test start = train end per window, in strictly
chronological order. -/
theorem c8_walkforward_windows (start endT : ℚ) (q : WalkForwardPlanner) :
    c8Planner.generate 0 91
      = Except.ok [{ in_start := 0, in_end := 60, out_start := 60, out_end := 90 }] ∧
    (endT < start + (q.in_sample_days : ℚ) + (q.out_sample_days : ℚ) →
      q.generate start endT
        = Except.error ("Walk-forward plan is empty; extend the date range.")) ∧
    (∀ ws, q.generate start endT = Except.ok ws →
      (∀ w ∈ ws, w.out_start = w.in_end) ∧
      ws.Pairwise (fun a b => a.in_start < b.in_start)) := by
  refine ⟨?_, fun hshort => ?_, fun ws hws => ?_⟩
  · have hin : ((c8Planner.in_sample_days : ℤ) : ℚ) = 60 := rfl
    have hout : ((c8Planner.out_sample_days : ℤ) : ℚ) = 30 := rfl
    have h2 : c8Planner.generateAux 91 30 = [] := by
      rw [WalkForwardPlanner.generateAux, hin, hout]
      norm_num
    have h1 : c8Planner.generateAux 91 0
        = [{ in_start := 0, in_end := 60, out_start := 60, out_end := 90 }] := by
      rw [WalkForwardPlanner.generateAux, hin, hout]
      norm_num [h2]
    simp [WalkForwardPlanner.generate, h1]
  · have hempty : q.generateAux endT start = [] := by
      rw [WalkForwardPlanner.generateAux]
      exact dif_neg (not_le.mpr (by linarith))
    simp [WalkForwardPlanner.generate, hempty]
  · have hprops := generateAux_props q endT (⌈endT - start⌉).toNat start le_rfl
    unfold WalkForwardPlanner.generate at hws
    by_cases he : (q.generateAux endT start).isEmpty
    · simp [he] at hws
    · simp [he] at hws
      subst hws
      exact ⟨fun w hw => (hprops.1 w hw).1, hprops.2⟩

/-- C8 witness: a 10-day range cannot hold a 60+30-day window, so planning
fails with the configuration error. -/
theorem c8_walkforward_windows_witness :
    c8Planner.generate 0 10
      = Except.error ("Walk-forward plan is empty; extend the date range.") :=
  (c8_walkforward_windows 0 10 c8Planner).2.1 (by norm_num [c8Planner])

/-- C9: holding balance, entry, stop, point value and contract size fixed
(with a non-negative balance and positive point value), the sized volume is
monotone non-decreasing in `risk_per_trade_pct`: a smaller risk fraction
never sizes a larger volume, equality being possible once the minimum-lot,
max-position or 2-lot clamp binds. -/
theorem c9_sizing_monotone (balance entry stop point contract : ℚ)
    (cfg1 cfg2 : RiskConfig) (hb : 0 ≤ balance) (hpt : 0 < point)
    (hr : cfg1.risk_per_trade_pct ≤ cfg2.risk_per_trade_pct) (v1 v2 : ℚ)
    (h1 : calculate_position_size balance entry stop cfg1 point contract = .ok v1)
    (h2 : calculate_position_size balance entry stop cfg2 point contract = .ok v2) :
    v1 ≤ v2 := by
  by_cases hd : |entry - stop| = 0
  · simp [calculate_position_size, hd] at h1 h2
    linarith
  · have habs : 0 < |entry - stop| := (abs_nonneg _).lt_of_ne (Ne.symm hd)
    have hpips : ¬ |entry - stop| / point = 0 := by positivity
    by_cases hc : entry * contract = 0
    · simp only [calculate_position_size] at h1
      rw [if_neg hd, if_neg (ne_of_gt hpt), if_neg hpips, if_pos hc] at h1
      exact absurd h1 (by simp)
    · simp only [calculate_position_size] at h1 h2
      rw [if_neg hd, if_neg (ne_of_gt hpt), if_neg hpips, if_neg hc] at h1 h2
      rw [← Except.ok.inj h1, ← Except.ok.inj h2]
      have hden : 0 < |entry - stop| / point * 10 := by positivity
      have hA : balance * cfg1.risk_per_trade_pct / (|entry - stop| / point * 10)
          ≤ balance * cfg2.risk_per_trade_pct / (|entry - stop| / point * 10) :=
        (div_le_div_right hden).mpr (mul_le_mul_of_nonneg_left hr hb)
      exact max_le_max (le_refl _) (min_le_min hA (le_refl _))

/-- C9 witness: the monotonicity theorem applied at a concrete pair of risk
fractions (2% and 3%) where the sized volumes are 0.02 and 0.03 lots. -/
theorem c9_sizing_monotone_witness :
    calculate_position_size 10000 1 (9/10) {} (1/10000) 1 = .ok (1/50) ∧
    calculate_position_size 10000 1 (9/10) { risk_per_trade_pct := 3/100 }
      (1/10000) 1 = .ok (3/100) ∧
    (1/50 : ℚ) ≤ 3/100 :=
  ⟨by norm_num [calculate_position_size, abs_of_nonneg, min_def, max_def],
   by norm_num [calculate_position_size, abs_of_nonneg, min_def, max_def],
   c9_sizing_monotone 10000 1 (9/10) (1/10000) 1 {} { risk_per_trade_pct := 3/100 }
     (by norm_num) (by norm_num) (by norm_num) (1/50) (3/100)
     (by norm_num [calculate_position_size, abs_of_nonneg, min_def, max_def])
     (by norm_num [calculate_position_size, abs_of_nonneg, min_def, max_def])⟩

/-- Processing a bar never changes which (symbol, direction) slot a surviving
position occupies. -/
lemma processPosition_key (settings : BacktestSettings) (p : SimulatedPosition)
    (bar : Bar) : positionKey (processPosition settings p bar).1 = positionKey p := by
  simp only [processPosition, SimulatedPosition.update_extremes, positionKey]
  split_ifs <;> rfl

/-- The keys of the positions kept by `_process_open_positions` form a
sublist of the incoming keys: exits delete, nothing is renamed. -/
lemma processOpenPositionsAux_keys (settings : BacktestSettings)
    (bars : List (String × Bar)) (timestamp now : ℚ) :
    ∀ (ps : List SimulatedPosition) (st : EngineState),
      ((processOpenPositionsAux settings bars timestamp now ps st).1.map positionKey).Sublist
        (ps.map positionKey) := by
  intro ps
  induction ps with
  | nil =>
      intro st
      simp [processOpenPositionsAux]
  | cons p rest ih =>
      intro st
      simp only [processOpenPositionsAux]
      cases hlb : lookupBar bars p.symbol with
      | none =>
          simpa using List.Sublist.cons₂ (positionKey p) (ih st)
      | some bar =>
          rcases hpp : processPosition settings p bar with ⟨p2, exitQ⟩
          have hkey : positionKey p2 = positionKey p := by
            have h := processPosition_key settings p bar
            rwa [hpp] at h
          cases exitQ with
          | none =>
              simpa [hpp, hkey] using List.Sublist.cons₂ (positionKey p) (ih st)
          | some pr =>
              rcases pr with ⟨price, reason⟩
              simpa [hpp] using List.Sublist.cons (positionKey p) (ih _)

/-- Marking to market rewrites pnl fields only: the key sequence of the open
list is untouched. -/
lemma markPositionsAux_keys (bars : List (String × Bar)) :
    ∀ (ps : List SimulatedPosition) (rs : RiskState),
      ((markPositionsAux bars ps rs).2.1).map positionKey = ps.map positionKey := by
  intro ps
  induction ps with
  | nil =>
      intro rs
      simp [markPositionsAux]
  | cons p rest ih =>
      intro rs
      simp only [markPositionsAux]
      cases hlb : lookupBar bars p.symbol with
      | none =>
          simpa using ih rs
      | some bar =>
          cases hrp : p.risk_position with
          | none =>
              simpa using ih rs
          | some rp =>
              simpa [positionKey] using ih _

/-- Embeds `_has_open_position` answers exactly key membership in the open list. -/
lemma hasOpenPosition_false_iff (l : List SimulatedPosition) (symbol : String)
    (direction : SignalType) :
    hasOpenPosition l symbol direction = false ↔
      (symbol, direction) ∉ l.map positionKey := by
  simp only [hasOpenPosition, List.any_eq_false, decide_eq_true_eq,
    List.mem_map, positionKey]
  constructor
  · rintro h ⟨p, hp, hkey⟩
    exact h p hp ⟨congrArg Prod.fst hkey, congrArg Prod.snd hkey⟩
  · intro h p hp hpd
    exact h ⟨p, hp, by rw [hpd.1, hpd.2]⟩

/-- Executing a bar's recommendations preserves key uniqueness: a new
position is appended only behind the `_has_open_position` guard. -/
lemma executeRecommendations_nodup (cfg : RiskConfig) (settings : BacktestSettings)
    (bars : List (String × Bar)) (timestamp now : ℚ) :
    ∀ (recs : List StrategyRecommendation) (st st' : EngineState),
      executeRecommendations cfg settings bars timestamp now recs st = .ok st' →
      PositionKeysNodup st.open_positions → PositionKeysNodup st'.open_positions := by
  intro recs
  induction recs with
  | nil =>
      intro st st' hex hn
      simp only [executeRecommendations] at hex
      obtain rfl := Except.ok.inj hex
      exact hn
  | cons r rest ih =>
      intro st st' hex hn
      simp only [executeRecommendations] at hex
      by_cases hsig : r.signal = SignalType.hold
      · rw [if_pos hsig] at hex
        exact ih st st' hex hn
      · rw [if_neg hsig] at hex
        cases hlb : lookupBar bars r.symbol with
        | none =>
            simp only [hlb] at hex
            exact ih st st' hex hn
        | some bar =>
            simp only [hlb] at hex
            by_cases hop : hasOpenPosition st.open_positions r.symbol r.signal
            · rw [if_pos hop] at hex
              exact ih st st' hex hn
            · rw [if_neg hop] at hex
              rcases hv : RiskEngine.validate_trade cfg st.risk_state st.limits now
                with ⟨ls2, okb, msg⟩
              simp only [hv] at hex
              cases okb with
              | false =>
                  exact ih _ st' hex (by simpa [PositionKeysNodup] using hn)
              | true =>
                  cases hsz : riskEngineCalculatePositionSize cfg st.risk_state r with
                  | error e =>
                      simp only [hsz] at hex
                      exact absurd hex (by simp)
                  | ok size =>
                      simp only [hsz] at hex
                      by_cases hsize : size ≤ 0
                      · rw [if_pos hsize] at hex
                        exact ih _ st' hex (by simpa [PositionKeysNodup] using hn)
                      · rw [if_neg hsize] at hex
                        refine ih _ st' hex ?_
                        have hkeys : (r.symbol, r.signal) ∉
                            st.open_positions.map positionKey :=
                          (hasOpenPosition_false_iff _ _ _).mp
                            (Bool.of_not_eq_true hop)
                        simp only [PositionKeysNodup, List.map_append,
                          List.map_cons, List.map_nil, positionKey] at hn ⊢
                        rw [List.nodup_append]
                        refine ⟨hn, List.nodup_singleton _, ?_⟩
                        intro x hx hx'
                        have hx2 : x = (r.symbol, r.signal) := by simpa using hx'
                        subst hx2
                        exact hkeys (by simpa [positionKey] using hx)

/-- One full bar step preserves key uniqueness of the open list. -/
lemma stepBar_nodup (cfg : RiskConfig) (settings : BacktestSettings)
    (bars : List (String × Bar)) (recs : List StrategyRecommendation)
    (timestamp now : ℚ) (st st' : EngineState)
    (h : stepBar cfg settings bars recs timestamp now st = .ok st')
    (hn : PositionKeysNodup st.open_positions) :
    PositionKeysNodup st'.open_positions := by
  have h1 : PositionKeysNodup
      (processOpenPositions settings bars timestamp now st).open_positions := by
    simp only [processOpenPositions, PositionKeysNodup]
    have hsub := processOpenPositionsAux_keys settings bars timestamp now
      st.open_positions st
    exact List.Nodup.sublist (by simpa using hsub) hn
  have h2 : PositionKeysNodup
      (markPositions bars (processOpenPositions settings bars timestamp now st)).2.open_positions := by
    simp only [markPositions, PositionKeysNodup]
    have hkeys := markPositionsAux_keys bars
      (processOpenPositions settings bars timestamp now st).open_positions
      (processOpenPositions settings bars timestamp now st).risk_state
    simpa [hkeys] using h1
  simp only [stepBar] at h
  exact executeRecommendations_nodup cfg settings bars timestamp now recs _ st' h
    (by simpa [PositionKeysNodup] using h2)

/-- C10: in every state the simulator's bar loop can reach from a fresh
engine, the open list holds at most one `SimulatedPosition` per
(symbol, direction) pair — a matching recommendation never opens a second
one. -/
theorem c10_at_most_one_position (cfg : RiskConfig) (settings : BacktestSettings)
    (s : EngineState) (h : Reachable cfg settings s) :
    PositionKeysNodup s.open_positions := by
  induction h with
  | init => simp [initState, PositionKeysNodup]
  | step bars recs timestamp now hreach hstep ih =>
      exact stepBar_nodup cfg settings bars recs timestamp now _ _ hstep ih
  | liquidate bars timestamp now hreach ih =>
      simp [liquidateAll, PositionKeysNodup]

/-- C10 witness: the invariant at the freshly initialized engine, the root of
the reachability relation. -/
theorem c10_at_most_one_position_witness :
    PositionKeysNodup (initState ({} : BacktestSettings)).open_positions :=
  c10_at_most_one_position {} {} (initState {}) Reachable.init
